import Mathlib

/-!
Shallow embedding of the chat component in `src/components/Chat.tsx`.

The component keeps four pieces of state (`messages`, `input`,
`selectedFile`, `isLoading`) plus the DOM value of the hidden file-picker
element (`fileInputRef.current.value`).  `handleSubmit` runs in two phases:
a synchronous phase up to the `fetch` call (guard, append of the user
message, clearing of the draft, construction of the form data, setting of
the loading flag and clearing of the selected file), and a settlement phase
(the `then`/`catch`/`finally` of the awaited call).  We embed both phases
as pure state-transition functions, with the network outcome supplied as a
parameter, and `Date.now()` supplied as a `Nat` parameter.
-/

inductive Sender where
  | user
  | bot
deriving Repr, DecidableEq

/-- The `Message` interface of `Chat.tsx`: id, text, sender, timestamp and
an optional `imageUrl`.  `Date` timestamps are modelled as `Nat`. -/
structure Message where
  id : String
  text : String
  sender : Sender
  timestamp : Nat
  imageUrl : Option String := none
deriving Repr, DecidableEq

/-- Files are modelled by an opaque identifying string (their content is
never inspected by the component). -/
abbrev FileV := String

/-- The component state: the `useState` hooks plus the file-picker DOM
value that the `finally` block resets. -/
structure ChatState where
  messages : List Message
  input : String
  selectedFile : Option FileV
  isLoading : Bool
  fileInputValue : String
deriving Repr, DecidableEq

/-- The seeded welcome message the `messages` state is initialised with. -/
def welcomeMessage : Message :=
  { id := "1"
    text := "👋 I\x27m here to help analyze X-ray images and provide orthopedic suggestions. Upload an image or ask your query."
    sender := .bot
    timestamp := 0 }

/-- Initial component state. -/
def initState : ChatState :=
  { messages := [welcomeMessage]
    input := ""
    selectedFile := none
    isLoading := false
    fileInputValue := "" }

/-- The multipart payload built by `handleSubmit`: `formData.append` is
called at most once per field, so the payload is a pair of optional
fields `message` and `image`. -/
structure FormDataM where
  message : Option String := none
  image : Option FileV := none
deriving Repr, DecidableEq

/-- The parsed JSON response body: the three fields the component reads.
`none` models an absent field. -/
structure ResponseData where
  response : Option String := none
  annotated_image_url : Option String := none
  error : Option String := none
deriving Repr, DecidableEq

/-- JavaScript `String.prototype.trim`: strips leading and trailing
whitespace.  Defined over the character list so it is kernel-computable. -/
def jsTrim (s : String) : String :=
  String.mk (((s.data.dropWhile Char.isWhitespace).reverse.dropWhile
    Char.isWhitespace).reverse)

/-- JavaScript truthiness of an optional string field: `undefined` and the
empty string are falsy. -/
def truthy : Option String → Bool
  | none => false
  | some s => s ≠ ""

/-- JavaScript `a || b` on an optional string field against a string
default (used for `data.response || ''`). -/
def jsOr (o : Option String) (d : String) : String :=
  match o with
  | some s => if s ≠ "" then s else d
  | none => d

/-- Settlement of the awaited `fetch`/`res.json()` pair: either a parsed
JSON object, or a throw/reject (network failure, non-JSON body, ...). -/
inductive FetchOutcome where
  | ok (data : ResponseData)
  | fail
deriving Repr, DecidableEq

/-- The synchronous part of `handleSubmit`, up to the `fetch` call:
the emptiness guard, the append of the user message, clearing of the
draft text, construction of the form data (from the closure value of
`input`, i.e. the pre-clear draft), `setIsLoading(true)` and
`setSelectedFile(null)`.  Returns the new state and `some formData`
when a request is dispatched, `none` when the guard rejects. -/
def prePhase (s : ChatState) (now : Nat) : ChatState × Option FormDataM :=
  if jsTrim s.input = "" ∧ s.selectedFile = none then
    (s, none)
  else
    let userMessage : Message :=
      { id := toString now ++ "-user"
        text := s.input
        sender := .user
        timestamp := now }
    let fd : FormDataM :=
      { message := if jsTrim s.input = "" then none else some s.input
        image := s.selectedFile }
    ({ s with
        messages := s.messages ++ [userMessage]
        input := ""
        isLoading := true
        selectedFile := none },
     some fd)

/-- The settlement part of `handleSubmit`: the `try` body after the await
(success / server-error branches), the `catch` branch, and the `finally`
block (`setIsLoading(false)` and resetting the file-picker value). -/
def settle (s : ChatState) (outcome : FetchOutcome) (now : Nat) : ChatState :=
  let s1 : ChatState :=
    match outcome with
    | .ok data =>
      if truthy data.response || truthy data.annotated_image_url then
        { s with messages := s.messages ++
            [{ id := toString now ++ "-bot"
               text := jsOr data.response ""
               sender := .bot
               timestamp := now
               imageUrl := data.annotated_image_url }] }
      else if truthy data.error then
        { s with messages := s.messages ++
            [{ id := toString now ++ "-error"
               text := "⚠ Error: " ++ data.error.getD ""
               sender := .bot
               timestamp := now }] }
      else s
    | .fail =>
      { s with messages := s.messages ++
          [{ id := toString now ++ "-fetch-error"
             text := "⚠ Failed to connect to the server."
             sender := .bot
             timestamp := now }] }
  { s1 with isLoading := false, fileInputValue := "" }

/-- The whole `handleSubmit` handler: the synchronous phase and, when a
request was dispatched, the settlement phase with the given outcome. -/
def handleSubmit (s : ChatState) (outcome : FetchOutcome)
    (nowU nowB : Nat) : ChatState :=
  match prePhase s nowU with
  | (s1, none) => s1
  | (s1, some _) => settle s1 outcome nowB

/-- The discrete operations the component performs on its state: a full
submission cycle, a keystroke in the text input (`setInput`), and a
file-picker interaction (`setSelectedFile`). -/
inductive Step : ChatState → ChatState → Prop where
  | submit (s : ChatState) (outcome : FetchOutcome) (nowU nowB : Nat) :
      Step s (handleSubmit s outcome nowU nowB)
  | typeInput (s : ChatState) (v : String) :
      Step s { s with input := v }
  | pickFile (s : ChatState) (f : Option FileV) :
      Step s { s with selectedFile := f }

/-- States reachable from the initial state through component operations. -/
inductive Reachable : ChatState → Prop where
  | init : Reachable initState
  | step {s t : ChatState} : Reachable s → Step s t → Reachable t

/-- Helper: under a passing guard, `prePhase` appends exactly the user
message, clears the draft, sets the loading flag and clears the file. -/
theorem prePhase_dispatch (s : ChatState) (now : Nat)
    (hpre : ¬(jsTrim s.input = "" ∧ s.selectedFile = none)) :
    prePhase s now =
      ({ s with
          messages := s.messages ++
            [{ id := toString now ++ "-user"
               text := s.input
               sender := .user
               timestamp := now
               imageUrl := none }]
          input := ""
          isLoading := true
          selectedFile := none },
       some { message := if jsTrim s.input = "" then none else some s.input
              image := s.selectedFile }) := by
  unfold prePhase
  rw [if_neg hpre]

/-- Helper: when the settlement falls in one of the three handled
categories, `settle` appends exactly one bot message at the end. -/
theorem settle_appends_bot (t : ChatState) (outcome : FetchOutcome) (now : Nat)
    (hcat : outcome = .fail ∨
      ∃ d, outcome = .ok d ∧
        (truthy d.response = true ∨ truthy d.annotated_image_url = true ∨
         truthy d.error = true)) :
    ∃ b, b.sender = .bot ∧ (settle t outcome now).messages = t.messages ++ [b] := by
  rcases hcat with h | ⟨d, rfl, hd⟩
  · subst h
    exact ⟨{ id := toString now ++ "-fetch-error",
             text := "⚠ Failed to connect to the server.",
             sender := .bot, timestamp := now, imageUrl := none }, rfl, rfl⟩
  · by_cases hs : (truthy d.response || truthy d.annotated_image_url) = true
    · refine ⟨{ id := toString now ++ "-bot", text := jsOr d.response "",
                sender := .bot, timestamp := now,
                imageUrl := d.annotated_image_url }, rfl, ?_⟩
      simp [settle, hs]
    · have hr : truthy d.response = false := by
        rcases Bool.or_eq_false_iff.mp (Bool.eq_false_iff.mpr hs) with ⟨h1, _⟩
        exact h1
      have hi : truthy d.annotated_image_url = false := by
        rcases Bool.or_eq_false_iff.mp (Bool.eq_false_iff.mpr hs) with ⟨_, h2⟩
        exact h2
      have he : truthy d.error = true := by
        rcases hd with h | h | h
        · rw [hr] at h; exact absurd h (by simp)
        · rw [hi] at h; exact absurd h (by simp)
        · exact h
      refine ⟨{ id := toString now ++ "-error",
                text := "⚠ Error: " ++ d.error.getD "",
                sender := .bot, timestamp := now, imageUrl := none }, rfl, ?_⟩
      simp [settle, hr, hi, he]

/-- C1: for every submission passing the non-empty precondition, exactly one
`user` message is appended immediately, and when the settlement is a
success, a server-declared error, or a transport failure, exactly one
`bot` message is appended after settlement — never more, never zero. -/
theorem c1_one_user_one_bot (s : ChatState) (outcome : FetchOutcome)
    (nowU nowB : Nat)
    (hpre : ¬(jsTrim s.input = "" ∧ s.selectedFile = none))
    (hcat : outcome = .fail ∨
      ∃ d, outcome = .ok d ∧
        (truthy d.response = true ∨ truthy d.annotated_image_url = true ∨
         truthy d.error = true)) :
    ∃ u b, u.sender = .user ∧ b.sender = .bot ∧
      (prePhase s nowU).1.messages = s.messages ++ [u] ∧
      (handleSubmit s outcome nowU nowB).messages = s.messages ++ [u, b] := by
  obtain ⟨b, hb, hmsg⟩ :=
    settle_appends_bot (prePhase s nowU).1 outcome nowB hcat
  refine ⟨{ id := toString nowU ++ "-user", text := s.input, sender := .user,
            timestamp := nowU, imageUrl := none }, b, rfl, hb, ?_, ?_⟩
  · rw [prePhase_dispatch s nowU hpre]
  · rw [handleSubmit, prePhase_dispatch s nowU hpre]
    rw [prePhase_dispatch s nowU hpre] at hmsg
    simpa [List.append_assoc] using hmsg

/-- C1 witness at a concrete input. -/
theorem c1_witness :
    ∃ u b, u.sender = .user ∧ b.sender = .bot ∧
      (prePhase { initState with input := "hi" } 3).1.messages =
        ({ initState with input := "hi" } : ChatState).messages ++ [u] ∧
      (handleSubmit { initState with input := "hi" } .fail 3 4).messages =
        ({ initState with input := "hi" } : ChatState).messages ++ [u, b] :=
  c1_one_user_one_bot { initState with input := "hi" } .fail 3 4
    (by decide) (Or.inl rfl)

/-- C4: a submission with blank draft and no file is a complete no-op:
no request is dispatched and the state is unchanged. -/
theorem c4_empty_submission_noop (s : ChatState) (outcome : FetchOutcome)
    (nowU nowB : Nat) (h1 : jsTrim s.input = "") (h2 : s.selectedFile = none) :
    prePhase s nowU = (s, none) ∧ handleSubmit s outcome nowU nowB = s := by
  have hg : jsTrim s.input = "" ∧ s.selectedFile = none := ⟨h1, h2⟩
  refine ⟨?_, ?_⟩
  · unfold prePhase
    rw [if_pos hg]
  · unfold handleSubmit prePhase
    rw [if_pos hg]

/-- C4 witness at a concrete input. -/
theorem c4_witness :
    prePhase { initState with input := "  " } 3 =
      ({ initState with input := "  " }, none) ∧
    handleSubmit { initState with input := "  " } .fail 3 4 =
      { initState with input := "  " } :=
  c4_empty_submission_noop { initState with input := "  " } .fail 3 4
    (by decide) rfl

/-- C5: for every submission passing the precondition, the in-flight flag
is true in the state paired with the dispatched request, and is false
after settlement for every outcome. -/
theorem c5_inflight_flag (s : ChatState) (nowU : Nat)
    (hpre : ¬(jsTrim s.input = "" ∧ s.selectedFile = none)) :
    (prePhase s nowU).1.isLoading = true ∧
    (prePhase s nowU).2 ≠ none ∧
    ∀ (outcome : FetchOutcome) (nowB : Nat),
      (settle (prePhase s nowU).1 outcome nowB).isLoading = false := by
  rw [prePhase_dispatch s nowU hpre]
  refine ⟨rfl, by simp, ?_⟩
  intro outcome nowB
  cases outcome <;> rfl

/-- C5 witness at a concrete input. -/
theorem c5_witness :
    (prePhase { initState with input := "hi" } 3).1.isLoading = true ∧
    (prePhase { initState with input := "hi" } 3).2 ≠ none ∧
    ∀ (outcome : FetchOutcome) (nowB : Nat),
      (settle (prePhase { initState with input := "hi" } 3).1
        outcome nowB).isLoading = false :=
  c5_inflight_flag { initState with input := "hi" } 3 (by decide)

/-- C9: a throw/reject of the network call appends exactly one bot message
with the fixed connection-failure text and no image; the underlying error
is not surfaced in the message. -/
theorem c9_transport_failure_message (s : ChatState) (now : Nat) :
    settle s .fail now =
      { s with
          messages := s.messages ++
            [{ id := toString now ++ "-fetch-error"
               text := "⚠ Failed to connect to the server."
               sender := .bot
               timestamp := now
               imageUrl := none }]
          isLoading := false
          fileInputValue := "" } := rfl

/-- C6: the success branch and the server-error branch are mutually
exclusive: a truthy response text or image URL selects the success branch
(bot message with that text, defaulting to the empty string, and that
image reference) even when an error field is also present; the error
field is consulted only when neither success field is truthy. -/
theorem c6_success_beats_error :
    (∀ (s : ChatState) (d : ResponseData) (now : Nat),
      truthy d.response = true ∨ truthy d.annotated_image_url = true →
      settle s (.ok d) now =
        { s with
            messages := s.messages ++
              [{ id := toString now ++ "-bot"
                 text := jsOr d.response ""
                 sender := .bot
                 timestamp := now
                 imageUrl := d.annotated_image_url }]
            isLoading := false
            fileInputValue := "" }) ∧
    (∀ (s : ChatState) (d : ResponseData) (now : Nat),
      truthy d.response = false → truthy d.annotated_image_url = false →
      truthy d.error = true →
      settle s (.ok d) now =
        { s with
            messages := s.messages ++
              [{ id := toString now ++ "-error"
                 text := "⚠ Error: " ++ d.error.getD ""
                 sender := .bot
                 timestamp := now
                 imageUrl := none }]
            isLoading := false
            fileInputValue := "" }) := by
  constructor
  · intro s d now h
    have hs : (truthy d.response || truthy d.annotated_image_url) = true := by
      rcases h with h | h <;> simp [h]
    simp [settle, hs]
  · intro s d now hr hi he
    simp [settle, hr, hi, he]

/-- C6 witness: with both a response text and an error field present, the
success branch wins; with only an error field, the error branch runs. -/
theorem c6_witness :
    settle initState (.ok { response := some "R", error := some "E" }) 7 =
      { initState with
          messages := initState.messages ++
            [{ id := toString 7 ++ "-bot", text := "R", sender := .bot,
               timestamp := 7, imageUrl := none }]
          isLoading := false
          fileInputValue := "" } ∧
    settle initState (.ok { error := some "E" }) 7 =
      { initState with
          messages := initState.messages ++
            [{ id := toString 7 ++ "-error", text := "⚠ Error: E",
               sender := .bot, timestamp := 7, imageUrl := none }]
          isLoading := false
          fileInputValue := "" } :=
  ⟨c6_success_beats_error.1 initState { response := some "R", error := some "E" } 7
      (Or.inl (by decide)),
   c6_success_beats_error.2 initState { error := some "E" } 7
      (by decide) (by decide) (by decide)⟩

/-- C8: a response with no truthy success field and a non-empty error
field `m` appends exactly one bot message with text `"⚠ Error: " ++ m`
and no image reference. -/
theorem c8_server_error_text (s : ChatState) (d : ResponseData) (m : String)
    (now : Nat) (hr : truthy d.response = false)
    (hi : truthy d.annotated_image_url = false)
    (he : d.error = some m) (hm : m ≠ "") :
    settle s (.ok d) now =
      { s with
          messages := s.messages ++
            [{ id := toString now ++ "-error"
               text := "⚠ Error: " ++ m
               sender := .bot
               timestamp := now
               imageUrl := none }]
          isLoading := false
          fileInputValue := "" } := by
  have he' : truthy (some m) = true := by simp [truthy, hm]
  simp [settle, hr, hi, he, he']

/-- C8 witness: the example from the spec, error field "bad image". -/
theorem c8_witness :
    settle initState (.ok { error := some "bad image" }) 7 =
      { initState with
          messages := initState.messages ++
            [{ id := toString 7 ++ "-error", text := "⚠ Error: bad image",
               sender := .bot, timestamp := 7, imageUrl := none }]
          isLoading := false
          fileInputValue := "" } :=
  c8_server_error_text initState { error := some "bad image" } "bad image" 7
    (by decide) (by decide) rfl (by decide)

/-- C2 counterexample: with draft `" hi "`, the dispatched payload's text
field carries the raw draft `" hi "`, not the trimmed text `"hi"`, so the
claim that the field carries the trimmed draft text fails. -/
theorem c2_counterexample :
    (prePhase { initState with input := " hi " } 5).2 =
      some { message := some " hi ", image := none } ∧
    jsTrim " hi " = "hi" ∧
    (prePhase { initState with input := " hi " } 5).2 ≠
      some { message := some (jsTrim " hi "), image := none } := by decide

/-- C2 amended: the payload's text field carries the raw (untrimmed) draft
text and is present exactly when the trimmed text is non-empty; the file
field equals the selected-file state. -/
theorem c2_amended_payload_fields (s : ChatState) (now : Nat) (fd : FormDataM)
    (h : (prePhase s now).2 = some fd) :
    fd.message = (if jsTrim s.input = "" then none else some s.input) ∧
    fd.image = s.selectedFile := by
  by_cases hg : jsTrim s.input = "" ∧ s.selectedFile = none
  · rw [prePhase, if_pos hg] at h
    exact absurd h (by simp)
  · rw [prePhase_dispatch s now hg] at h
    obtain rfl : ({ message := if jsTrim s.input = "" then none else some s.input
                    image := s.selectedFile } : FormDataM) = fd :=
      Option.some.inj h
    exact ⟨rfl, rfl⟩

/-- C2 amended witness at a concrete input. -/
theorem c2_amended_witness :
    (({ message := some " hi ", image := none } : FormDataM).message =
      (if jsTrim " hi " = "" then none
       else some ({ initState with input := " hi " } : ChatState).input)) ∧
    ({ message := some " hi ", image := none } : FormDataM).image =
      ({ initState with input := " hi " } : ChatState).selectedFile :=
  c2_amended_payload_fields { initState with input := " hi " } 5
    { message := some " hi ", image := none } (by decide)

/-- C3 counterexample: with a selected file, the synchronous dispatch phase
already clears the selected-file state (while it hands a dispatched
payload to the network call), so the claim that the selected-file state
stays set until settlement fails. -/
theorem c3_counterexample :
    (prePhase { initState with selectedFile := some "xray.png" } 0).1.selectedFile
      = none ∧
    (prePhase { initState with selectedFile := some "xray.png" } 0).1.isLoading
      = true ∧
    (prePhase { initState with selectedFile := some "xray.png" } 0).2 =
      some { message := none, image := some "xray.png" } := by decide

/-- C3 amended: the selected-file state is cleared already at dispatch,
before the network call is issued; the dispatched payload still carries
the file; the file-picker element's value is left unchanged at dispatch
and is reset after settlement, for every outcome. -/
theorem c3_amended_file_clearing (s : ChatState) (now : Nat)
    (hpre : ¬(jsTrim s.input = "" ∧ s.selectedFile = none)) :
    (prePhase s now).1.selectedFile = none ∧
    (prePhase s now).2 = some { message := if jsTrim s.input = "" then none
                                           else some s.input
                                image := s.selectedFile } ∧
    (prePhase s now).1.fileInputValue = s.fileInputValue ∧
    ∀ (outcome : FetchOutcome) (nowB : Nat),
      (settle (prePhase s now).1 outcome nowB).fileInputValue = "" := by
  rw [prePhase_dispatch s now hpre]
  refine ⟨rfl, rfl, rfl, ?_⟩
  intro outcome nowB
  cases outcome <;> rfl

/-- C3 amended witness at a concrete input. -/
theorem c3_amended_witness :
    (prePhase { initState with selectedFile := some "xray.png" } 0).1.selectedFile
      = none ∧
    (prePhase { initState with selectedFile := some "xray.png" } 0).2 =
      some { message := if jsTrim ({ initState with
                selectedFile := some "xray.png" } : ChatState).input = ""
              then none
              else some ({ initState with
                selectedFile := some "xray.png" } : ChatState).input
             image := ({ initState with
               selectedFile := some "xray.png" } : ChatState).selectedFile } ∧
    (prePhase { initState with
      selectedFile := some "xray.png" } 0).1.fileInputValue =
      ({ initState with selectedFile := some "xray.png" } : ChatState).fileInputValue ∧
    ∀ (outcome : FetchOutcome) (nowB : Nat),
      (settle (prePhase { initState with selectedFile := some "xray.png" } 0).1
        outcome nowB).fileInputValue = "" :=
  c3_amended_file_clearing { initState with selectedFile := some "xray.png" } 0
    (by decide)

/-- C10: a whitespace-only draft with a selected file is dispatched; the
appended user message carries the raw whitespace draft, and the payload
omits the text field while carrying the file field. -/
theorem c10_whitespace_draft_with_file (s : ChatState) (f : FileV) (now : Nat)
    (_h0 : s.input ≠ "") (h1 : jsTrim s.input = "")
    (h2 : s.selectedFile = some f) :
    (prePhase s now).1.messages =
      s.messages ++
        [{ id := toString now ++ "-user", text := s.input, sender := .user,
           timestamp := now, imageUrl := none }] ∧
    (prePhase s now).2 = some { message := none, image := some f } := by
  have hpre : ¬(jsTrim s.input = "" ∧ s.selectedFile = none) := by
    rintro ⟨-, hnone⟩
    rw [h2] at hnone
    exact Option.noConfusion hnone
  rw [prePhase_dispatch s now hpre]
  refine ⟨rfl, ?_⟩
  rw [h1, h2]
  simp

/-- C10 witness at a concrete input: draft `" "`, file `"xray.png"`. -/
theorem c10_witness :
    (prePhase { initState with
        input := " "
        selectedFile := some "xray.png" } 9).1.messages =
      ({ initState with
          input := " "
          selectedFile := some "xray.png" } : ChatState).messages ++
        [{ id := toString 9 ++ "-user", text := " ", sender := .user,
           timestamp := 9, imageUrl := none }] ∧
    (prePhase { initState with
        input := " "
        selectedFile := some "xray.png" } 9).2 =
      some { message := none, image := some "xray.png" } :=
  c10_whitespace_draft_with_file
    { initState with input := " ", selectedFile := some "xray.png" }
    "xray.png" 9 (by decide) (by decide) rfl

/-- Helper: the synchronous phase leaves the message list unchanged or
appends exactly one message at the end. -/
theorem prePhase_messages (s : ChatState) (now : Nat) :
    (prePhase s now).1.messages = s.messages ∨
    ∃ m, (prePhase s now).1.messages = s.messages ++ [m] := by
  by_cases hg : jsTrim s.input = "" ∧ s.selectedFile = none
  · left
    rw [prePhase, if_pos hg]
  · right
    exact ⟨_, by rw [prePhase_dispatch s now hg]⟩

/-- Helper: the settlement phase leaves the message list unchanged or
appends exactly one message at the end. -/
theorem settle_messages (s : ChatState) (outcome : FetchOutcome) (now : Nat) :
    (settle s outcome now).messages = s.messages ∨
    ∃ m, (settle s outcome now).messages = s.messages ++ [m] := by
  cases outcome with
  | fail => exact Or.inr ⟨_, rfl⟩
  | ok d =>
    by_cases hs : (truthy d.response || truthy d.annotated_image_url) = true
    · right
      refine ⟨{ id := toString now ++ "-bot", text := jsOr d.response "",
                sender := .bot, timestamp := now,
                imageUrl := d.annotated_image_url }, ?_⟩
      simp [settle, hs]
    · by_cases he : truthy d.error = true
      · right
        refine ⟨{ id := toString now ++ "-error",
                  text := "⚠ Error: " ++ d.error.getD "",
                  sender := .bot, timestamp := now, imageUrl := none }, ?_⟩
        simp [settle, hs, he]
      · left
        simp [settle, hs, he]

/-- Helper: `handleSubmit` when the guard rejects. -/
theorem handleSubmit_of_none {s s1 : ChatState} (outcome : FetchOutcome)
    {nowU : Nat} (nowB : Nat) (h : prePhase s nowU = (s1, none)) :
    handleSubmit s outcome nowU nowB = s1 := by
  unfold handleSubmit
  rw [h]

/-- Helper: `handleSubmit` when a request is dispatched. -/
theorem handleSubmit_of_some {s s1 : ChatState} {fd : FormDataM}
    (outcome : FetchOutcome) {nowU : Nat} (nowB : Nat)
    (h : prePhase s nowU = (s1, some fd)) :
    handleSubmit s outcome nowU nowB = settle s1 outcome nowB := by
  unfold handleSubmit
  rw [h]

/-- Helper: every component operation extends the message list at the end. -/
theorem step_messages_extend {s t : ChatState} (h : Step s t) :
    ∃ tail, t.messages = s.messages ++ tail := by
  cases h with
  | typeInput v => exact ⟨[], by simp⟩
  | pickFile f => exact ⟨[], by simp⟩
  | submit outcome nowU nowB =>
    rcases hp : prePhase s nowU with ⟨s1, fd⟩
    have h1 := prePhase_messages s nowU
    rw [hp] at h1
    cases fd with
    | none =>
      rw [handleSubmit_of_none outcome nowB hp]
      rcases h1 with h1 | ⟨u, h1⟩
      · exact ⟨[], by simpa using h1⟩
      · exact ⟨[u], by simpa using h1⟩
    | some fd =>
      rw [handleSubmit_of_some outcome nowB hp]
      have h2 := settle_messages s1 outcome nowB
      simp only at h1
      rcases h1 with h1 | ⟨u, h1⟩ <;> rcases h2 with h2 | ⟨b, h2⟩
      · exact ⟨[], by rw [h2, h1, List.append_nil]⟩
      · exact ⟨[b], by rw [h2, h1]⟩
      · exact ⟨[u], by rw [h2, h1]⟩
      · refine ⟨[u, b], ?_⟩
        rw [h2, h1, List.append_assoc]
        rfl

/-- C7: the message sequence is append-only and order-preserving: each
phase appends at most one message at the end, every operation only
extends the list, and every reachable state starts with the seeded
welcome message. -/
theorem c7_append_only :
    (∀ (s : ChatState) (now : Nat),
      (prePhase s now).1.messages = s.messages ∨
      ∃ m, (prePhase s now).1.messages = s.messages ++ [m]) ∧
    (∀ (s : ChatState) (outcome : FetchOutcome) (now : Nat),
      (settle s outcome now).messages = s.messages ∨
      ∃ m, (settle s outcome now).messages = s.messages ++ [m]) ∧
    (∀ {s t : ChatState}, Step s t → ∃ tail, t.messages = s.messages ++ tail) ∧
    (∀ s : ChatState, Reachable s → s.messages.head? = some welcomeMessage) := by
  refine ⟨prePhase_messages, settle_messages, @step_messages_extend, ?_⟩
  intro s hs
  induction hs with
  | init => rfl
  | @step s t _ hstep ih =>
    obtain ⟨tail, htail⟩ := step_messages_extend hstep
    rw [htail]
    cases hm : s.messages with
    | nil => rw [hm] at ih; exact absurd ih (by simp)
    | cons a l =>
      rw [hm] at ih
      simpa using ih

/-- C7 witness: a concrete operation extends the list, and the initial
state starts with the welcome message. -/
theorem c7_witness :
    (∃ tail, ({ initState with input := "x" } : ChatState).messages =
      initState.messages ++ tail) ∧
    initState.messages.head? = some welcomeMessage :=
  ⟨c7_append_only.2.2.1 (Step.typeInput initState "x"),
   c7_append_only.2.2.2 initState Reachable.init⟩
